import Mathlib

/-
Verification development for the inkBoard structured-document template engine
(src/inkBoard/configuration/loaders.py, src/inkBoard/dashboard/loader.py,
src/inkBoard/dashboard/templates.py).

The yaml node tree and the python values produced from it are embedded
shallowly: scalars are modelled as strings carrying their yaml tag, mappings
as ordered association lists with python dict update semantics, and the
python objects produced by construction as the inductive type Value.
Loader state that the source keeps on classes (the DashboardLoader
config-error flag and the count of logged errors) is threaded explicitly as
an Eff record returned by each construction function.

Recursion through template instantiation is unbounded in the source (a
template body may reference another template), so the dashboard construction
family takes an explicit fuel argument; exhausted fuel is reported as the
python RecursionError that the source would eventually raise.
-/

namespace InkBoard

/-- Scalar yaml node: the yaml tag together with the scalar text. -/
structure SNode where
  tag : String
  value : String
deriving DecidableEq, Repr

/-- Yaml node tree as produced by the yaml parser: scalars, mappings with
scalar keys (all keys appearing in the modelled documents are scalars), and
sequences. Source positions are dropped: they feed logging only. -/
inductive Node where
| scalar : SNode → Node
| mapping : List (SNode × Node) → Node
| sequence : List Node → Node

/-- Python values produced by construction: strings (all scalars are
modelled as their string form), dicts (ordered, YAMLNodeDict and plain dicts
are not distinguished), lists, constructed elements (class name plus the
keyword arguments the class was called with), and the python None. -/
inductive Value where
| str : String → Value
| vmap : List (String × Value) → Value
| vlist : List Value → Value
| elem : String → List (String × Value) → Value
| none : Value

/-- Association list standing for a python dict from strings to values. -/
abbrev AList := List (String × Value)

/-- Python dict lookup d.get(k). -/
def plookup {α : Type} (k : String) : List (String × α) → Option α
  | [] => Option.none
  | (k', v) :: l => if k = k' then some v else plookup k l

/-- Python dict membership test, k in d. -/
def pcontains {α : Type} (k : String) (l : List (String × α)) : Bool :=
  (plookup k l).isSome

/-- Python dict assignment d[k] = v: an existing key keeps its position and
gets the new value, a fresh key is appended at the end. -/
def pset {α : Type} (k : String) (v : α) : List (String × α) → List (String × α)
  | [] => [(k, v)]
  | (k', w) :: l => if k = k' then (k', v) :: l else (k', w) :: pset k v l

/-- Python dict.setdefault: assign only when the key is absent. -/
def psetdefault {α : Type} (k : String) (v : α) (l : List (String × α)) :
    List (String × α) :=
  if pcontains k l then l else pset k v l

/-- Python dict d.pop(k), the removal part; the popped value is read with
plookup beforehand. -/
def ppop {α : Type} (k : String) : List (String × α) → List (String × α)
  | [] => []
  | (k', w) :: l => if k = k' then l else (k', w) :: ppop k l

/-- Python dict union left | right: start from the left dict and assign
every entry of the right dict, so for a shared key the right value wins. -/
def punion {α : Type} (l r : List (String × α)) : List (String × α) :=
  r.foldl (fun acc e => pset e.1 e.2 acc) l

/-- Insertion into a modelled python set: sets are embedded as duplicate-free
lists in insertion order. -/
def sadd (x : String) (s : List String) : List String :=
  if x ∈ s then s else s ++ [x]

/-- Tags that mark scalar template-variable substitution sites
(configuration/const.py, TEMPLATE_VARIABLE_TAGS). -/
def TEMPLATE_VARIABLE_TAGS : List String :=
  ["!tmp_var", "!tmp_variable", "!template_var", "!template_variable"]

/-- Tags that mark mapping-splice and sequence-splice sites
(configuration/const.py, TEMPLATE_EXTEND_TAGS). -/
def TEMPLATE_EXTEND_TAGS : List String :=
  ["!tmp_extend", "!template_extend"]

/-- Yaml tag of a plain string scalar (configuration/const.py, YAML_STR_TAG). -/
def YAML_STR_TAG : String := "tag:yaml.org,2002:str"

/-- Top-level configuration keys whose nodes are kept for the dashboard pass
(configuration/const.py, DASHBOARD_KEYS). -/
def DASHBOARD_KEYS : List String :=
  ["templates", "elements", "layouts", "popups", "main_tabs", "statusbar"]

/-- Tag of a yaml mapping node and of a yaml sequence node, as exposed by
the node tag attribute that the source compares against the template tags. -/
def Node.tag : Node → String
  | .scalar s => s.tag
  | .mapping _ => "tag:yaml.org,2002:map"
  | .sequence _ => "tag:yaml.org,2002:seq"

/-- Scalar text of a node; the source reads node.value of splice-site scalar
nodes to obtain the variable name. Non-scalar nodes yield their entry list
in python, which never names a variable; the model returns the empty
string for them (such a node cannot match a scalar variable name). -/
def Node.scalarValue : Node → String
  | .scalar s => s.value
  | .mapping _ => ""
  | .sequence _ => ""

/-- Count of logged errors and the DashboardLoader class-wide config-error
flag; returned by each construction function and merged by callers. -/
structure Eff where
  configError : Bool
  loggedErrors : Nat
deriving DecidableEq, Repr

/-- No effect. -/
def Eff.zero : Eff := ⟨false, 0⟩

/-- One logged error without the config-error flag. -/
def Eff.log : Eff := ⟨false, 1⟩

/-- One logged error together with the config-error flag, the outcome of the
error branches of DashboardLoader.construct_mapping. -/
def Eff.flag : Eff := ⟨true, 1⟩

/-- Sequential combination of effects. -/
def Eff.merge (a b : Eff) : Eff :=
  ⟨a.configError || b.configError, a.loggedErrors + b.loggedErrors⟩

mutual

/-- Modelled from the spec: update_nested_dict is imported from the external
PythonScreenStackManager.tools package, which is not part of this
repository. Its use at dashboard/loader.py line 90, d = update_nested_dict(val, d),
merges the splice value val into the dict built so far. The direction of
the merge (entries of the first argument overwrite same-named entries of the
second, recursing into dicts that are present on both sides) is pinned by the
test src/tests_inkboard/templates_test.py test_complex_mapping_variable,
which requires the splice value font_size to overwrite a literal entry that
was written into the dict before the splice tag was reached. -/
def update_nested_dict : List (String × Value) → List (String × Value) → List (String × Value)
  | [], base => base
  | (k, v) :: rest, base => update_nested_dict rest (und_set k v base)

/-- Write one update entry into the base dict, merging dict values that are
present on both sides; helper of update_nested_dict. -/
def und_set : String → Value → List (String × Value) → List (String × Value)
  | k, v, [] => [(k, v)]
  | k, v, (k', w) :: l =>
    if k = k' then (k', und_merge v w) :: l else (k', w) :: und_set k v l

/-- Merge of an update value with an existing value under the same key:
two dicts merge recursively, anything else is overwritten by the update
value; helper of update_nested_dict. -/
def und_merge : Value → Value → Value
  | Value.vmap u, Value.vmap b => Value.vmap (update_nested_dict u b)
  | v, _ => v

end

/-- Identifier characters of a python string.Template placeholder. -/
def isIdentChar (c : Char) : Bool := c.isAlphanum || c = '_'

/-- Leading identifier character of a python string.Template placeholder. -/
def isIdentStart (c : Char) : Bool := c.isAlpha || c = '_'

/-- Opening brace character, written numerically. -/
def lbrace : Char := Char.ofNat 123

/-- Closing brace character, written numerically. -/
def rbrace : Char := Char.ofNat 125

/-- Completed bare identifier after a dollar: replaced when the substitution
map knows the name, kept verbatim (dollar plus the identifier) otherwise. -/
def finishIdent (m : List (String × String)) (acc : List Char) : List Char :=
  match plookup (String.mk acc) m with
  | some repl => repl.data
  | Option.none => '$' :: acc

/-- Completed braced identifier whose closing brace was found: replaced when
known, kept verbatim otherwise. -/
def finishBraced (m : List (String × String)) (acc : List Char) : List Char :=
  match plookup (String.mk acc) m with
  | some repl => repl.data
  | Option.none => '$' :: lbrace :: (acc ++ [rbrace])

mutual

/-- Scanner of python string.Template.safe_substitute over the character
list of the scalar, plain-text state: a dollar switches to the
dollar-follows state, everything else passes through. -/
def subPlain (m : List (String × String)) : List Char → List Char
  | [] => []
  | c :: cs => if c = '$' then subDollar m cs else c :: subPlain m cs

/-- State just after a dollar: a second dollar collapses to one, an
identifier start begins collection, an opening brace begins a braced
placeholder, anything else leaves the dollar verbatim. -/
def subDollar (m : List (String × String)) : List Char → List Char
  | [] => ['$']
  | c :: cs =>
    if c = '$' then '$' :: subPlain m cs
    else if isIdentStart c then subIdent m [c] cs
    else if c = lbrace then subBraced m [] cs
    else '$' :: c :: subPlain m cs

/-- Collecting a bare identifier after a dollar; acc holds the collected
characters in order. -/
def subIdent (m : List (String × String)) (acc : List Char) : List Char → List Char
  | [] => finishIdent m acc
  | c :: cs =>
    if isIdentChar c then subIdent m (acc ++ [c]) cs
    else if c = '$' then finishIdent m acc ++ subDollar m cs
    else finishIdent m acc ++ c :: subPlain m cs

/-- Collecting a braced identifier; a closing brace completes it, a
non-identifier character makes the whole pattern invalid, which
safe_substitute leaves verbatim. -/
def subBraced (m : List (String × String)) (acc : List Char) : List Char → List Char
  | [] => '$' :: lbrace :: acc
  | c :: cs =>
    if c = rbrace then finishBraced m acc ++ subPlain m cs
    else if isIdentChar c then subBraced m (acc ++ [c]) cs
    else if c = '$' then '$' :: lbrace :: (acc ++ subDollar m cs)
    else '$' :: lbrace :: (acc ++ c :: subPlain m cs)

end

/-- Python string.Template(val).safe_substitute(**m), as applied by
BaseSafeLoader.construct_scalar (configuration/loaders.py lines 93-97). -/
def safe_substitute (m : List (String × String)) (s : String) : String :=
  String.mk (subPlain m s.data)

/-- BaseSafeLoader.construct_scalar (configuration/loaders.py lines 93-97):
when the class-level substitution map has been installed and the scalar
contains a dollar sign, apply safe_substitute. The source tests the dollar
sign first and the presence of the map second; both tests are pure, so the
model may match on the map first. -/
def construct_scalar (subs : Option (List (String × String))) (val : String) : String :=
  match subs with
  | Option.none => val
  | some m => if '$' ∈ val.data then safe_substitute m val else val

/-- Split of a python string at every colon, str.split with a colon
separator, over the character list. -/
def splitColonAux : List Char → List Char → List (List Char)
  | [], acc => [acc.reverse]
  | c :: cs, acc => if c = ':' then acc.reverse :: splitColonAux cs [] else splitColonAux cs (c :: acc)

/-- Python elt_type.split with a colon separator. -/
def splitColon (s : String) : List String :=
  (splitColonAux s.data []).map (fun cs => String.mk cs)

/-- Compiled template: the value produced by TemplateLoader.construct_template
and stored by TemplateElement (dashboard/templates.py lines 126-141).
Field names follow the source attributes. -/
structure TemplateElement where
  template : String
  template_node : Node
  required_variables : List String
  optional_variables : AList
  sequence_variables : List String
  mapping_variables : List String

/-- Batched error raised by TemplateElement.construct_element (templates.py
lines 158-188): the template name together with every missing required
variable and every wrongly shaped mapping and sequence variable found in
this one call. The source logs one message per non-empty group and raises a
single TemplateElementError. -/
structure TemplateElementError where
  template : String
  missing : List String
  mappingErrs : List String
  sequenceErrs : List String
deriving DecidableEq, Repr

/-- Element class resolved by parse_element_type: either an ordinary element
class known by name, or a TemplateElement instance returned by the template
namespace. -/
inductive EltClass where
| cls : String → EltClass
| templateElt : TemplateElement → EltClass

/-- Python class name of a resolved element class, as handed to a validator. -/
def EltClass.className : EltClass → String
  | .cls n => n
  | .templateElt _ => "TemplateElement"

/-- Python class name of a constructed value, type(elt) as handed to the
validator at the template reference site (loader.py line 135). -/
def classOf : Value → String
  | .elem c _ => c
  | .vmap _ => "dict"
  | .vlist _ => "list"
  | .str _ => "str"
  | .none => "NoneType"

/-- Modelled from the spec: the validators handed to parse_element_type.
The default validate_general lives in dashboard/validate.py, which is not
present under src; the spec (section 4.2 step 5) describes it as the
default, permissive validator, so the general validator accepts everything.
A caller-configured top-level validator (the DashboardLoader class attribute
_validator, installed by orchestration code outside src) is the custom case,
whose reject behaviour is supplied by the environment. -/
inductive Validator where
| general : Validator
| custom : Validator
deriving DecidableEq, Repr

/-- Modelled from the spec: DEBUGGING is imported from inkBoard.constants but
is not defined in the constants module under src; in normal operation the
error branches of construct_mapping log and continue instead of re-raising,
so the model fixes it to false. -/
def DEBUGGING : Bool := false

/-- Environment of one dashboard construction run: the read-only registries
and maps the loaders consult. defaultElements models the name table built
from the built-in element pack; elementParsers models CORE.elementParsers
(namespace to integration parser); customValidatorRejects gives the reject
behaviour of the configured top-level validator; clsValidator is the
DashboardLoader class attribute _validator; substitutions, secrets, entities
and files model the corresponding process-loaded maps, with an included file
represented by its fully parsed value. -/
structure Env where
  defaultElements : List String
  elementParsers : List (String × (String → Option EltClass))
  customValidatorRejects : String → String → Bool
  clsValidator : Validator
  substitutions : Option (List (String × String))
  secrets : List (String × Value)
  entities : List (String × Value)
  files : List (String × Value)

/-- Reject test of a validator applied to a resolved class name and the
requested type string; true models the validator raising TypeError. -/
def validator_rejects (env : Env) : Validator → String → String → Bool
  | .general => fun _ _ => false
  | .custom => env.customValidatorRejects

/-- Outcome of parse_element_type (loader.py lines 57-82): a resolved class,
the python None returned for the type string None under the general
validator, a TypeError or KeyError (bad type, including a validator reject),
a SyntaxWarning (unknown namespace identifier), or the ValueError that
unpacking a split with more than one colon raises. -/
inductive ParseTypeResult where
| ok : EltClass → ParseTypeResult
| noneClass : ParseTypeResult
| typeKeyErr : ParseTypeResult
| synWarn : ParseTypeResult
| valueErr : ParseTypeResult

/-- DashboardLoader.parse_element_type (loader.py lines 57-82). A bare name
is looked up in the default element table and is not validated; a namespaced
name is resolved through the registered element parsers, with validation
skipped for the reserved template namespace. An integration parser that does
not know the local type is modelled as returning nothing, standing for the
KeyError such a parser raises. -/
def parse_element_type (env : Env) (elt_type : String) (validator : Validator) :
    ParseTypeResult :=
  if elt_type = "None" ∧ validator = Validator.general then .noneClass
  else if ¬ (':' ∈ elt_type.data) then
    if elt_type ∈ env.defaultElements then .ok (.cls elt_type) else .typeKeyErr
  else
    match splitColon elt_type with
    | [idf, elt_type_str] =>
      match plookup idf env.elementParsers with
      | Option.none => .synWarn
      | some prs =>
        match prs elt_type_str with
        | Option.none => .typeKeyErr
        | some elt_class =>
          if idf = "template" then .ok elt_class
          else if validator_rejects env validator elt_class.className elt_type then .typeKeyErr
          else .ok elt_class
    | _ => .valueErr

/-- Result of one dashboard construction call: a python value, an uncaught
python exception of the named kind, or the TemplateElementError raised by
construct_element (which the caller at the reference site catches). -/
inductive CRes where
| ok : Value → CRes
| exc : String → CRes
| templateErr : TemplateElementError → CRes

/-- Result of the entry loop of construct_mapping: the dict built so far or
an escaping exception. -/
inductive MRes where
| ok : AList → MRes
| exc : String → MRes

/-- Result of construct_sequence: the python list or an escaping exception. -/
inductive SRes where
| ok : List Value → SRes
| exc : String → SRes

/-- Shape test isinstance(v, dict). -/
def Value.isDict : Value → Bool
  | .vmap _ => true
  | _ => false

/-- Shape test isinstance(v, list). -/
def Value.isList : Value → Bool
  | .vlist _ => true
  | _ => false

/-- Required-variable check of construct_element (templates.py line 160):
every required variable not present in the binding map. -/
def missing_required (t : TemplateElement) (varmap : AList) : List String :=
  t.required_variables.filter (fun x => ! pcontains x varmap)

/-- Mapping-shape check of construct_element (templates.py line 169): every
mapping-splice variable present in the binding map whose value is not a
dict. -/
def bad_mapping_vars (t : TemplateElement) (varmap : AList) : List String :=
  t.mapping_variables.filter (fun v =>
    match plookup v varmap with
    | some w => ! w.isDict
    | Option.none => false)

/-- Sequence-shape check of construct_element (templates.py line 179): every
sequence-splice variable present in the binding map whose value is not a
list. -/
def bad_sequence_vars (t : TemplateElement) (varmap : AList) : List String :=
  t.sequence_variables.filter (fun v =>
    match plookup v varmap with
    | some w => ! w.isList
    | Option.none => false)

/-- Handling of the outcome of a template instantiation at the reference
site, the try block of loader.py lines 130-165 around construct_element: on
success the resolved object is validated against the requested type string
(a reject raises TemplateTypeError, caught as inkBoardTemplateError at line
150); a TemplateElementError is caught at line 150; any other exception is
caught by the catch-all at line 155. Every caught error logs, sets the
config-error flag and yields no object; under the debug flag the source
would re-raise instead. -/
def handle_template_result (env : Env) (validator : Validator) (type_str : String)
    (r : CRes × Eff) : CRes × Eff :=
  match r with
  | (.ok elt, e) =>
    if validator_rejects env validator (classOf elt) type_str then
      if DEBUGGING then (.exc "TemplateTypeError", e) else (.ok Value.none, e.merge Eff.flag)
    else (.ok elt, e)
  | (.templateErr te, e) =>
    if DEBUGGING then (.templateErr te, e) else (.ok Value.none, e.merge Eff.flag)
  | (.exc s, e) =>
    if DEBUGGING then (.exc s, e) else (.ok Value.none, e.merge Eff.flag)

mutual

/-- DashboardLoader.construct_dashboard_node (loader.py lines 177-188) as it
behaves on a TemplateParser instance whose variable map is vars: mappings
and sequences recurse, scalars dispatch on the registered tag constructors
(the template variable tags resolve through the variable map, per
TemplateParser.template_variable_constructor at templates.py lines 217-219,
raising KeyError for an unknown name; the secret, entity and include tags
come from BaseSafeLoader), and plain scalars go through construct_scalar.
Fuel decreases on every call of the family; exhaustion stands for the
python RecursionError. -/
def construct_dashboard_node : Nat → Env → AList → Node → Nat → Nat → CRes × Eff
  | 0, _, _, _, _, _ => (.exc "RecursionError", Eff.zero)
  | fuel + 1, env, vars, .mapping entries, deep, depth =>
    construct_mapping fuel env vars entries deep depth
  | fuel + 1, env, vars, .sequence items, deep, depth =>
    (match construct_sequence fuel env vars items deep depth with
      | (.ok l, e) => (.ok (.vlist l), e)
      | (.exc s, e) => (.exc s, e))
  | _fuel + 1, env, vars, .scalar s, _deep, _depth =>
    if s.tag ∈ TEMPLATE_VARIABLE_TAGS then
        match plookup s.value vars with
        | some v => (.ok v, Eff.zero)
        | Option.none => (.exc "KeyError", Eff.zero)
      else if s.tag = "!secret" then
        match plookup (construct_scalar env.substitutions s.value) env.secrets with
        | some w => (.ok w, Eff.zero)
        | Option.none => (.ok Value.none, Eff.log)
      else if s.tag = "!entity" then
        match plookup (construct_scalar env.substitutions s.value) env.entities with
        | some w => (.ok w, Eff.zero)
        | Option.none => (.ok Value.none, Eff.log)
      else if s.tag = "!include" then
        match plookup (construct_scalar env.substitutions s.value) env.files with
        | some w => (.ok w, Eff.zero)
        | Option.none => (.ok (.vmap []), Eff.log)
      else (.ok (.str (construct_scalar env.substitutions s.value)), Eff.zero)
termination_by structural fuel _ _ _ _ _ => fuel

/-- DashboardLoader.construct_mapping (loader.py lines 84-165), split into
the entry loop building the dict d and the dispatch on the finished dict. -/
def construct_mapping : Nat → Env → AList → List (SNode × Node) → Nat → Nat → CRes × Eff
  | 0, _, _, _, _, _ => (.exc "RecursionError", Eff.zero)
  | fuel + 1, env, vars, entries, deep, depth =>
    match construct_mapping_loop fuel env vars entries [] deep depth with
    | (.exc s, e) => (.exc s, e)
    | (.ok d, e) =>
      match construct_mapping_dispatch fuel env vars d deep depth with
      | (r, e2) => (r, e.merge e2)
termination_by structural fuel _ _ _ _ _ => fuel

/-- Entry loop of DashboardLoader.construct_mapping (loader.py lines 86-93):
a key tagged as a splice is resolved through the variable map, tolerating an
absent name by splicing an empty dict (TemplateParser.template_variable_extender,
templates.py lines 221-226), and merged into the dict built so far with
update_nested_dict; any other entry constructs its value one level deeper
and assigns it under the scalar key. A splice value that is not a dict
stands for the AttributeError that iterating it as a dict raises. -/
def construct_mapping_loop : Nat → Env → AList → List (SNode × Node) → AList → Nat → Nat → MRes × Eff
  | 0, _, _, _, _, _, _ => (.exc "RecursionError", Eff.zero)
  | _fuel + 1, _env, _vars, [], d, _deep, _depth => (.ok d, Eff.zero)
  | fuel + 1, env, vars, (key, vnode) :: rest, d, deep, depth =>
      if key.tag ∈ TEMPLATE_EXTEND_TAGS then
        match (plookup vnode.scalarValue vars).getD (Value.vmap []) with
        | Value.vmap mv =>
          construct_mapping_loop fuel env vars rest (update_nested_dict mv d) deep depth
        | _ => (.exc "AttributeError", Eff.zero)
      else
        match construct_dashboard_node fuel env vars vnode deep (depth + 1) with
        | (.ok v, e) =>
          match construct_mapping_loop fuel env vars rest (pset key.value v d) deep depth with
          | (res, e2) => (res, e.merge e2)
        | (.exc s, e) => (.exc s, e)
        | (.templateErr _, e) => (.exc "TemplateElementError", e)
termination_by structural fuel _ _ _ _ _ _ => fuel

/-- Dispatch of DashboardLoader.construct_mapping on the finished dict
(loader.py lines 95-165): no type entry yields the plain dict; a type entry
equal to the string None as the only entry yields no object; otherwise the
validator is the class-configured one at depth at most 1 and the general one
deeper, the type string is resolved by parse_element_type with the bad-type
and bad-identifier outcomes logging, setting the config-error flag and
yielding no object, a resolved python None yields the dict with the type
entry still present, a resolved TemplateElement (the source checks
isinstance against DashboardLoader._TemplateClass, whose assignment happens
in wiring outside src) instantiates through construct_element on the
variables entry of the dict, and an ordinary class constructs the element
from the remaining entries. A type value that is not
a string takes the TypeError branch of line 108. External element
constructors are modelled as always succeeding; their failure branches
(lines 140-163) concern collaborator classes outside this engine. -/
def construct_mapping_dispatch : Nat → Env → AList → AList → Nat → Nat → CRes × Eff
  | 0, _, _, _, _, _ => (.exc "RecursionError", Eff.zero)
  | fuel + 1, env, _vars, d, _deep, depth =>
    if ¬ pcontains "type" d then (.ok (.vmap d), Eff.zero)
    else
      match plookup "type" d with
      | Option.none => (.exc "KeyError", Eff.zero)
      | some tv =>
        match tv with
        | Value.str type_s =>
          if type_s = "None" ∧ d.length = 1 then (.ok Value.none, Eff.zero)
          else
            let validator := if depth ≤ 1 then env.clsValidator else Validator.general
            match parse_element_type env type_s validator with
            | .typeKeyErr => (.ok Value.none, Eff.flag)
            | .synWarn => (.ok Value.none, Eff.flag)
            | .valueErr => (.exc "ValueError", Eff.zero)
            | .noneClass => (.ok (.vmap d), Eff.zero)
            | .ok elt_class =>
              let d2 := ppop "type" d
              match elt_class with
              | .templateElt t =>
                match d2 with
                | [] => handle_template_result env validator type_s (construct_element fuel env t [])
                | [(k, kv)] =>
                  if k = "variables" then
                    match kv with
                    | Value.vmap m =>
                      handle_template_result env validator type_s (construct_element fuel env t m)
                    | _ => (.ok Value.none, Eff.flag)
                  else (.ok Value.none, Eff.flag)
                | _ => (.ok Value.none, Eff.flag)
              | .cls cname => (.ok (.elem cname d2), Eff.zero)
        | _ => (.ok Value.none, Eff.flag)
termination_by structural fuel _ _ _ _ _ => fuel

/-- DashboardLoader.construct_sequence (loader.py lines 167-175): a splice
item is resolved through the variable map, tolerating an absent name by
splicing an empty list, and its elements are extended into the result at
that exact position; any other item constructs one level deeper and is
appended. A splice value that is not a list stands for the TypeError of
extending with it. -/
def construct_sequence : Nat → Env → AList → List Node → Nat → Nat → SRes × Eff
  | 0, _, _, _, _, _ => (.exc "RecursionError", Eff.zero)
  | _fuel + 1, _env, _vars, [], _deep, _depth => (.ok [], Eff.zero)
  | fuel + 1, env, vars, x :: rest, deep, depth =>
      if x.tag ∈ TEMPLATE_EXTEND_TAGS then
        match (plookup x.scalarValue vars).getD (Value.vlist []) with
        | Value.vlist l =>
          match construct_sequence fuel env vars rest deep depth with
          | (.ok l2, e) => (.ok (l ++ l2), e)
          | (.exc s, e) => (.exc s, e)
        | _ => (.exc "TypeError", Eff.zero)
      else
        match construct_dashboard_node fuel env vars x deep (depth + 1) with
        | (.ok v, e) =>
          match construct_sequence fuel env vars rest deep depth with
          | (.ok l2, e2) => (.ok (v :: l2), e.merge e2)
          | (.exc s, e2) => (.exc s, e.merge e2)
        | (.exc s, e) => (.exc s, e)
        | (.templateErr _, e) => (.exc "TemplateElementError", e)
termination_by structural fuel _ _ _ _ _ => fuel

/-- TemplateElement.construct_element (templates.py lines 152-205): collect
every missing required variable, every mapping variable bound to a non-dict
and every sequence variable bound to a non-list, logging one message per
non-empty group; if anything was collected, raise one TemplateElementError
carrying all of it and build nothing. Otherwise overlay the caller bindings
over the compiled defaults (the caller value replaces a default wholesale)
and hand the stored body node to the dashboard constructor. The source call
passes the literal 2 positionally into the deep parameter of
construct_dashboard_node, so depth keeps its default value 0. -/
def construct_element : Nat → Env → TemplateElement → AList → CRes × Eff
  | 0, _, _, _ => (.exc "RecursionError", Eff.zero)
  | fuel + 1, env, t, varmap =>
    let missing := missing_required t varmap
    let maperr := bad_mapping_vars t varmap
    let seqerr := bad_sequence_vars t varmap
    let eff : Eff := ⟨false,
      (if missing.isEmpty then 0 else 1) + (if maperr.isEmpty then 0 else 1) +
        (if seqerr.isEmpty then 0 else 1)⟩
    if missing.isEmpty && maperr.isEmpty && seqerr.isEmpty then
      let template_vars := punion t.optional_variables varmap
      match construct_dashboard_node fuel env template_vars t.template_node 2 0 with
      | (r, e) => (r, eff.merge e)
    else (.templateErr ⟨t.template, missing, maperr, seqerr⟩, eff)
termination_by structural fuel _ _ _ => fuel

end

/-- Substitution map type installed from the reserved top-level key. -/
abbrev SubsMap := List (String × String)

/-- String a python dict key constructed from a node takes in the model; the
documents in scope key their mappings by scalars, and a missing secret used
as a key yields the python None, whose dict key prints as None. -/
def keyString : Value → String
  | .str s => s
  | .none => "None"
  | _ => ""

/-- Scalar construction of BaseSafeLoader via the registered tag
constructors (configuration/loaders.py lines 29-60 and 93-97): the secret
and entity tags look the constructed scalar up in the process-loaded maps,
logging an error and yielding the python None on a miss; the include tag
stands for loading the named file, with the file contents pre-parsed in the
environment and a missing file yielding an empty dict and a logged error;
every other scalar passes through construct_scalar. -/
def base_construct_scalar (env : Env) (subs : Option SubsMap) (s : SNode) : Value × Eff :=
  if s.tag = "!secret" then
    match plookup (construct_scalar subs s.value) env.secrets with
    | some w => (w, Eff.zero)
    | Option.none => (Value.none, Eff.log)
  else if s.tag = "!entity" then
    match plookup (construct_scalar subs s.value) env.entities with
    | some w => (w, Eff.zero)
    | Option.none => (Value.none, Eff.log)
  else if s.tag = "!include" then
    match plookup (construct_scalar subs s.value) env.files with
    | some w => (w, Eff.zero)
    | Option.none => (.vmap [], Eff.log)
  else (.str (construct_scalar subs s.value), Eff.zero)

mutual

/-- BaseSafeLoader construction of a node (configuration/loaders.py lines
93-110 together with the inherited construct_object dispatch): mappings
construct every key and value recursively, sequences construct every item,
scalars go through the tag constructors. The substitution map is passed
explicitly because the main config loader installs it mid-document. -/
def base_construct (env : Env) (subs : Option SubsMap) : Node → Value × Eff
  | .scalar s => base_construct_scalar env subs s
  | .mapping entries =>
    match base_construct_entries env subs [] entries with
    | (d, e) => (.vmap d, e)
  | .sequence items =>
    match base_construct_items env subs items with
    | (l, e) => (.vlist l, e)

/-- Entry loop of BaseSafeLoader.construct_mapping (loaders.py lines
99-110), accumulating the dict in source order with python assignment
semantics. -/
def base_construct_entries (env : Env) (subs : Option SubsMap) (acc : AList) :
    List (SNode × Node) → AList × Eff
  | [] => (acc, Eff.zero)
  | (k, vn) :: rest =>
    match base_construct_scalar env subs k with
    | (kv, e1) =>
      match base_construct env subs vn with
      | (v, e2) =>
        match base_construct_entries env subs (pset (keyString kv) v acc) rest with
        | (d, e3) => (d, e1.merge (e2.merge e3))

/-- Item loop of sequence construction under BaseSafeLoader. -/
def base_construct_items (env : Env) (subs : Option SubsMap) :
    List Node → List Value × Eff
  | [] => ([], Eff.zero)
  | x :: rest =>
    match base_construct env subs x with
    | (v, e1) =>
      match base_construct_items env subs rest with
      | (l, e2) => (v :: l, e1.merge e2)

end

/-- Conversion of a constructed substitution value to the string used by
safe_substitute; the substitution maps of the modelled documents hold scalar
values. -/
def valueToStr : Value → String
  | .str s => s
  | .none => "None"
  | _ => ""

/-- Contents of BaseSafeLoader substitutions after installing the
constructed substitutions dict (loaders.py line 140). -/
def subs_of_dict (m : AList) : SubsMap :=
  m.map (fun e => (e.1, valueToStr e.2))

/-- Observable ordering events of the top-level two-pass construction of
MainConfigLoader: the installation of the substitution map, and the
construction of a deferred top-level value under the substitution state
current at that moment. -/
inductive LEvent where
| installSubs : SubsMap → LEvent
| constructedTop : String → Option SubsMap → LEvent
deriving DecidableEq, Repr

/-- State leaving the first pass of MainConfigLoader.construct_mapping. -/
structure P1Out where
  subs : Option SubsMap
  data : AList
  parseLater : List (String × Node)
  events : List LEvent
  eff : Eff

/-- Result of the first pass; the exception stands for installing a
non-mapping substitutions value into a MappingProxyType. -/
inductive P1Res where
| ok : P1Out → P1Res
| exc : String → P1Res

/-- Result of the whole top-level construction. -/
structure TopOut where
  data : AList
  subs : Option SubsMap
  events : List LEvent
  eff : Eff

/-- Top-level construction result, with the escaping exception case. -/
inductive TopRes where
| ok : TopOut → TopRes
| exc : String → TopRes

/-- First pass of MainConfigLoader.construct_mapping (configuration/loaders.py
lines 126-147): walk the top-level entries in source order, constructing
each key; the substitutions entry constructs its value at once and installs
it as the class-wide substitution map, while every other entry (dashboard
keys included; the side stash of dashboard nodes feeds later orchestration
and is not modelled) defers its value node to the second pass. -/
def main_pass1 (env : Env) : List (SNode × Node) → Option SubsMap → AList →
    List (String × Node) → List LEvent → Eff → P1Res
  | [], subs, d, pl, ev, eff => .ok ⟨subs, d, pl, ev, eff⟩
  | (kn, vn) :: rest, subs, d, pl, ev, eff =>
    match base_construct_scalar env subs kn with
    | (kv, e1) =>
      let key := keyString kv
      if key = "substitutions" then
        match base_construct env subs vn with
        | (val, e2) =>
          match val with
          | Value.vmap mv =>
            main_pass1 env rest (some (subs_of_dict mv)) (pset key (.vmap mv) d) pl
              (ev ++ [.installSubs (subs_of_dict mv)]) (eff.merge (e1.merge e2))
          | _ => .exc "TypeError"
      else
        main_pass1 env rest subs d (pset key vn pl) ev (eff.merge e1)

/-- Second pass of MainConfigLoader.construct_mapping (loaders.py lines
149-155): construct every deferred value node in the order the first pass
recorded, under the installed substitution state. -/
def main_pass2 (env : Env) (subs : Option SubsMap) :
    List (String × Node) → AList → List LEvent → Eff → AList × List LEvent × Eff
  | [], d, ev, eff => (d, ev, eff)
  | (key, vn) :: rest, d, ev, eff =>
    match base_construct env subs vn with
    | (val, e) =>
      main_pass2 env subs rest (pset key val d) (ev ++ [.constructedTop key subs]) (eff.merge e)

/-- MainConfigLoader.construct_mapping on the root document node (loaders.py
lines 124-163): harvest pass followed by the deferred construction pass. -/
def main_construct_top (env : Env) (subs0 : Option SubsMap)
    (entries : List (SNode × Node)) : TopRes :=
  match main_pass1 env entries subs0 [] [] [] Eff.zero with
  | .exc s => .exc s
  | .ok p =>
    match main_pass2 env p.subs p.parseLater p.data p.events p.eff with
    | (d2, ev2, eff2) => .ok ⟨d2, p.subs, ev2, eff2⟩

/-- Variable usage discovered while scanning a template body: scalar
substitution sites, mapping-splice names and sequence-splice names, in
insertion order (the source keeps python sets). -/
structure ScanSets where
  vars : List String
  map_extends : List String
  sequence_extends : List String
deriving DecidableEq, Repr

/-- Allowed top-level entries of a template definition
(dashboard/templates.py line 21). -/
def allowed_entries : List String := ["defaults", "element"]

/-- Scalar construction during the template compile walk: a template
variable tag records the name and constructs to it
(TemplateLoader.template_variable_constructor, templates.py lines 44-46);
every other tag behaves as under BaseSafeLoader. -/
def template_scan_scalar (env : Env) (s : SNode) (sets : ScanSets) :
    Value × ScanSets × Eff :=
  if s.tag ∈ TEMPLATE_VARIABLE_TAGS then
    ((.str s.value), ⟨sadd s.value sets.vars, sets.map_extends, sets.sequence_extends⟩,
      Eff.zero)
  else
    match base_construct_scalar env env.substitutions s with
    | (v, e) => (v, sets, e)

mutual

/-- Modelled from the spec: the walk performed by
TemplateLoader.construct_document over the template node. The registration
of the template tags and the construct_mapping and construct_sequence
overrides of BaseSafeLoader that feed template_variable_extender are not
present under src (TemplateLoader.template_variable_extender at templates.py
lines 48-53 records the splice names and then defers to a base class method
that src does not contain). Following the spec, sections 4.2 step 1 and
4.3: the walk records every scalar-substitution tag, every mapping-splice
key and every sequence-splice element, and splice sites contribute nothing
to the constructed data since they are only meaningful to the template
machinery. -/
def template_scan (env : Env) : Node → ScanSets → Value × ScanSets × Eff
  | .scalar s, sets => template_scan_scalar env s sets
  | .mapping entries, sets =>
    match template_scan_entries env [] entries sets with
    | (d, sets2, e) => (.vmap d, sets2, e)
  | .sequence items, sets =>
    match template_scan_items env items sets with
    | (l, sets2, e) => (.vlist l, sets2, e)

/-- Entry walk of the template compile: a splice-tagged key records the
variable named by the value node into the mapping-splice set
(templates.py line 50) and adds nothing to the data. -/
def template_scan_entries (env : Env) (acc : AList) :
    List (SNode × Node) → ScanSets → AList × ScanSets × Eff
  | [], sets => (acc, sets, Eff.zero)
  | (k, vn) :: rest, sets =>
    if k.tag ∈ TEMPLATE_EXTEND_TAGS then
      template_scan_entries env acc rest
        ⟨sets.vars, sadd vn.scalarValue sets.map_extends, sets.sequence_extends⟩
    else
      match template_scan_scalar env k sets with
      | (kv, sets1, e1) =>
        match template_scan env vn sets1 with
        | (v, sets2, e2) =>
          match template_scan_entries env (pset (keyString kv) v acc) rest sets2 with
          | (d, sets3, e3) => (d, sets3, e1.merge (e2.merge e3))

/-- Item walk of the template compile: a splice-tagged item records its
scalar text into the sequence-splice set (templates.py line 52) and adds
nothing to the data. -/
def template_scan_items (env : Env) :
    List Node → ScanSets → List Value × ScanSets × Eff
  | [], sets => ([], sets, Eff.zero)
  | x :: rest, sets =>
    if x.tag ∈ TEMPLATE_EXTEND_TAGS then
      template_scan_items env rest
        ⟨sets.vars, sets.map_extends, sadd x.scalarValue sets.sequence_extends⟩
    else
      match template_scan env x sets with
      | (v, sets1, e1) =>
        match template_scan_items env rest sets1 with
        | (l, sets2, e2) => (v :: l, sets2, e1.merge e2)

end

/-- Batched compile failure of TemplateLoader.construct_template: which of
the checks of templates.py lines 59-104 fired. The source logs one message
per failed check and raises a single TemplateLoadError. -/
structure TemplateLoadError where
  template : String
  missingElement : Bool
  invalidEntries : List String
  mapSeqCollisions : List String
  badDefaults : List String
deriving DecidableEq, Repr

/-- Compile result of one template. -/
inductive TRes where
| ok : TemplateElement → TRes
| err : TemplateLoadError → TRes
| exc : String → TRes

/-- State of the defaults loop of construct_template (templates.py lines
86-112): remaining tentatively-required scalar variables, collected
optional variables, and names whose default had the wrong shape. -/
def defaults_loop (map_ext seq_ext : List String) :
    AList → List String → AList → List String → List String × AList × List String
  | [], vars, optionals, bad => (vars, optionals, bad)
  | (name, val) :: rest, vars, optionals, bad =>
    let st1 :=
      if name ∈ map_ext then
        if val.isDict then (pset name val optionals, bad) else (optionals, bad ++ [name])
      else if name ∈ seq_ext then
        if val.isList then (pset name val optionals, bad) else (optionals, bad ++ [name])
      else (optionals, bad)
    let st2 :=
      if name ∈ vars then (vars.erase name, psetdefault name val st1.1)
      else (vars, st1.1)
    defaults_loop map_ext seq_ext rest st2.1 st2.2 st1.2

/-- TemplateLoader.construct_template (dashboard/templates.py lines 55-119):
scan the whole template node once, collecting variable usage and the
constructed data; fail as a whole when the element entry is missing, when a
top-level entry is neither defaults nor element, when a name is used for
both mapping and sequence splicing, or when a default for a splice variable
has the wrong shape; otherwise produce the TemplateElement from the last
element entry of the base node. A non-mapping defaults entry stands for the
TypeError the source raises indexing it. -/
def construct_template (env : Env) (name : String)
    (baseEntries : List (SNode × Node)) : TRes :=
  match template_scan env (.mapping baseEntries) ⟨[], [], []⟩ with
  | (.vmap data, sets, _eff) =>
    let missingElement := ¬ pcontains "element" data
    let invalidEntries := (data.map (fun e => e.1)).filter (fun x => ¬ (x ∈ allowed_entries))
    let collisions := sets.map_extends.filter (fun x => x ∈ sets.sequence_extends)
    let templateNodeOpt := ((baseEntries.filter (fun e => e.1.value = "element")).map
      (fun e => e.2)).getLast?
    match plookup "defaults" data with
    | some (Value.vmap dm) =>
      match defaults_loop sets.map_extends sets.sequence_extends dm sets.vars [] [] with
      | (vars, optionals, bad) =>
        if missingElement ∨ invalidEntries ≠ [] ∨ collisions ≠ [] ∨ bad ≠ [] then
          .err ⟨name, missingElement, invalidEntries, collisions, bad⟩
        else
          match templateNodeOpt with
          | some tn => .ok ⟨name, tn, vars, optionals, sets.sequence_extends, sets.map_extends⟩
          | Option.none => .exc "NameError"
    | some _ => .exc "TypeError"
    | Option.none =>
      if missingElement ∨ invalidEntries ≠ [] ∨ collisions ≠ [] then
        .err ⟨name, missingElement, invalidEntries, collisions, []⟩
      else
        match templateNodeOpt with
        | some tn => .ok ⟨name, tn, sets.vars, [], sets.sequence_extends, sets.map_extends⟩
        | Option.none => .exc "NameError"
  | _ => .exc "TypeError"

/-- Compilation together with registration: TemplateElement.__init__
registers the produced template under its name (templates.py line 141),
which only happens when construct_template succeeds; a failed compile
leaves the registry untouched. -/
def compile_template (env : Env) (reg : List (String × TemplateElement))
    (name : String) (baseEntries : List (SNode × Node)) :
    List (String × TemplateElement) × Option TemplateElement :=
  match construct_template env name baseEntries with
  | .ok t => (pset name t reg, some t)
  | _ => (reg, Option.none)

/-- Compilation of a batch of templates in order, each against the registry
left by its predecessors. -/
def compile_many (env : Env) (reg : List (String × TemplateElement)) :
    List (String × List (SNode × Node)) → List (String × TemplateElement)
  | [] => reg
  | (n, b) :: rest => compile_many env (compile_template env reg n b).1 rest

/-- Shape of the defaults entry of a scanned template: absent or a dict.
Construct_template raises a TypeError on anything else. -/
def defaults_dictlike : Value → Bool
  | .vmap data =>
    (match plookup "defaults" data with
     | some w => w.isDict
     | Option.none => true)
  | _ => false

/-- Plain environment: no integrations, no configured validator, no
substitutions, secrets, entities or files. -/
def plainEnv : Env := ⟨[], [], fun _ _ => false, .general, Option.none, [], [], []⟩

/-- Template body of the precedence counterexample: the literal entry k = A
followed by a mapping-splice site for the variable m. -/
def c1Body : Node := .mapping
  [(⟨YAML_STR_TAG, "k"⟩, .scalar ⟨YAML_STR_TAG, "A"⟩),
   (⟨"!tmp_extend", ""⟩, .scalar ⟨YAML_STR_TAG, "m"⟩)]

/-- Compiled template whose body is c1Body, with m as its only (mapping
splice) variable. -/
def c1Template : TemplateElement := ⟨"prec", c1Body, [], [], [], ["m"]⟩

/-- Environment for the depth claim: one integration namespace p resolving
the local type W, and a configured top-level validator that rejects every
class. -/
def c3Env : Env :=
  ⟨[], [("p", fun lt => if lt = "W" then some (.cls "WCls") else Option.none)],
    fun _ _ => true, .custom, Option.none, [], [], []⟩

/-- Template body whose root carries a namespaced type. -/
def c3Body : Node := .mapping [(⟨YAML_STR_TAG, "type"⟩, .scalar ⟨YAML_STR_TAG, "p:W"⟩)]

/-- Compiled template with body c3Body and no variables. -/
def c3Template : TemplateElement := ⟨"c3t", c3Body, [], [], [], []⟩

/-- Concrete template for the c4 witness: one required variable named text,
a mapping variable named props and a sequence variable named items. -/
def c4Template : TemplateElement :=
  ⟨"c4t", .mapping [], ["text"], [], ["items"], ["props"]⟩

/-- Template with no element entry, used by the c5 witness. -/
def c5Body : List (SNode × Node) :=
  [(⟨YAML_STR_TAG, "defaults"⟩, .mapping [(⟨YAML_STR_TAG, "a"⟩, .scalar ⟨YAML_STR_TAG, "5"⟩)])]

/-- Template body using the same name v both as a scalar substitution site
and as a mapping-splice site. -/
def c2Body : List (SNode × Node) :=
  [(⟨YAML_STR_TAG, "element"⟩, .mapping
    [(⟨YAML_STR_TAG, "text"⟩, .scalar ⟨"!tmp_var", "v"⟩),
     (⟨"!tmp_extend", ""⟩, .scalar ⟨YAML_STR_TAG, "v"⟩)])]

/-- Template body using the name w both as a mapping splice and as a
sequence splice, for the c2_amended witness. -/
def c2DualBody : List (SNode × Node) :=
  [(⟨YAML_STR_TAG, "element"⟩, .mapping
    [(⟨YAML_STR_TAG, "elements"⟩, .sequence [.scalar ⟨"!tmp_extend", "w"⟩]),
     (⟨"!tmp_extend", ""⟩, .scalar ⟨YAML_STR_TAG, "w"⟩)])]

/-- Mapping node whose type names a namespace that no integration
registered (the SyntaxWarning path of parse_element_type, caught at
loader.py line 116). -/
def c8BadNode : Node :=
  .mapping [(⟨YAML_STR_TAG, "type"⟩, .scalar ⟨YAML_STR_TAG, "unknown:Widget"⟩)]

/-- Mapping node whose type is a bare name absent from the default element
table (the KeyError path of parse_element_type, caught at loader.py line
108). -/
def c8BadTypeNode : Node :=
  .mapping [(⟨YAML_STR_TAG, "type"⟩, .scalar ⟨YAML_STR_TAG, "NoSuchType"⟩)]

/-- Mapping node whose type names a known namespace with a local type its
parser does not know (also caught at loader.py line 108). -/
def c8BadLocalNode : Node :=
  .mapping [(⟨YAML_STR_TAG, "type"⟩, .scalar ⟨YAML_STR_TAG, "p:NoSuchLocal"⟩)]

/-- Integration parser of the p namespace used by the c8 witness: it knows
only the local type W. -/
def c8Prs : String → Option EltClass :=
  fun lt => if lt = "W" then some (.cls "WCls") else Option.none

/-- Environment of the c8 witness: one built-in element, the p namespace
registered with c8Prs, nothing else. -/
def c8Env : Env :=
  ⟨["Button"], [("p", c8Prs)], fun _ _ => false, .general, Option.none, [], [], []⟩

@[simp]
theorem Eff.merge_zero (e : Eff) : e.merge Eff.zero = e := by
  cases e
  simp [Eff.merge, Eff.zero]

@[simp]
theorem Eff.zero_merge (e : Eff) : Eff.zero.merge e = e := by
  cases e
  simp [Eff.merge, Eff.zero]

theorem pcontains_iff_mem_keys {α : Type} (k : String) (l : List (String × α)) :
    pcontains k l = true ↔ k ∈ l.map Prod.fst := by
  induction l with
  | nil => simp [pcontains, plookup]
  | cons e t ih =>
    by_cases h : k = e.1
    · simp [pcontains, plookup, h]
    · simp only [pcontains, plookup] at ih ⊢
      simp [h, ih]

theorem pset_append {α : Type} (k : String) (v : α) (l : List (String × α))
    (h : ¬ k ∈ l.map Prod.fst) : pset k v l = l ++ [(k, v)] := by
  induction l with
  | nil => simp [pset]
  | cons e t ih =>
    simp only [List.map_cons, List.mem_cons, not_or] at h
    simp [pset, h.1, ih h.2]

/-- Plain string-tagged scalar with no placeholder marker constructs to
itself under any substitution state. -/
theorem key_plain (env : Env) (subs : Option SubsMap) (s : String)
    (h : '$' ∉ s.data) :
    base_construct_scalar env subs ⟨YAML_STR_TAG, s⟩ = (.str s, Eff.zero) := by
  cases subs <;> simp [base_construct_scalar, construct_scalar, YAML_STR_TAG, h]

/-- C1, counterexample: instantiating a template mapping that holds the
literal entry k = A followed by a mapping-splice of m bound to the dict with
k = B and j = C produces k = B — the splice value, not the literal — so the
claimed precedence of literal entries regardless of splice position is
false. -/
theorem c1_counterexample :
    construct_element 9 plainEnv c1Template
        [("m", .vmap [("k", .str "B"), ("j", .str "C")])]
      = (.ok (.vmap [("k", .str "B"), ("j", .str "C")]), Eff.zero) := by
  simp [construct_element, c1Template, c1Body, plainEnv, construct_dashboard_node,
    construct_mapping, construct_mapping_loop, construct_mapping_dispatch,
    missing_required, bad_mapping_vars, bad_sequence_vars, punion, pset, plookup,
    pcontains, update_nested_dict, und_set, und_merge, construct_scalar,
    Node.scalarValue, Node.tag, YAML_STR_TAG, TEMPLATE_EXTEND_TAGS,
    TEMPLATE_VARIABLE_TAGS, Value.isDict, Eff.merge, Eff.zero]

/-- C1, amended: body-order precedence of the mapping splice. When the
splice site for a variable bound to the dict with k = B and j = C precedes
the literal entry k = A, the literal wins (k = A, j = C); when the splice
site follows the literal entry, the splice value wins (k = B, j = C). The
later entry in body order takes precedence; the literal does not always
win. -/
theorem c1_amended (f : Nat) (env : Env) (vrs : AList) (v a b c k j : String)
    (deep depth : Nat)
    (hsubs : env.substitutions = Option.none)
    (hkj : k ≠ j) (hkt : k ≠ "type") (hjt : j ≠ "type")
    (hv : plookup v vrs = some (.vmap [(k, .str b), (j, .str c)])) :
    construct_mapping (f + 9) env vrs
        [(⟨"!tmp_extend", ""⟩, .scalar ⟨YAML_STR_TAG, v⟩),
         (⟨YAML_STR_TAG, k⟩, .scalar ⟨YAML_STR_TAG, a⟩)] deep depth
      = (.ok (.vmap [(k, .str a), (j, .str c)]), Eff.zero)
    ∧ construct_mapping (f + 9) env vrs
        [(⟨YAML_STR_TAG, k⟩, .scalar ⟨YAML_STR_TAG, a⟩),
         (⟨"!tmp_extend", ""⟩, .scalar ⟨YAML_STR_TAG, v⟩)] deep depth
      = (.ok (.vmap [(k, .str b), (j, .str c)]), Eff.zero) := by
  constructor <;>
    simp [construct_mapping, construct_mapping_loop, construct_mapping_dispatch,
      construct_dashboard_node, hsubs, hv, hkj, hkt, hjt, Ne.symm hkj,
      Ne.symm hkt, Ne.symm hjt, update_nested_dict, und_set, und_merge, pset,
      plookup, pcontains, construct_scalar, Node.scalarValue, Node.tag,
      YAML_STR_TAG, TEMPLATE_EXTEND_TAGS, TEMPLATE_VARIABLE_TAGS, Eff.merge,
      Eff.zero]

/-- Witness for c1_amended at a concrete instance. -/
theorem c1_amended_witness :
    plookup "m" [("m", Value.vmap [("x", Value.str "B"), ("y", Value.str "C")])]
        = some (Value.vmap [("x", Value.str "B"), ("y", Value.str "C")])
    ∧ (construct_mapping 9 plainEnv
          [("m", Value.vmap [("x", Value.str "B"), ("y", Value.str "C")])]
          [(⟨"!tmp_extend", ""⟩, .scalar ⟨YAML_STR_TAG, "m"⟩),
           (⟨YAML_STR_TAG, "x"⟩, .scalar ⟨YAML_STR_TAG, "A"⟩)] 1 2
        = (.ok (.vmap [("x", .str "A"), ("y", .str "C")]), Eff.zero)
      ∧ construct_mapping 9 plainEnv
          [("m", Value.vmap [("x", Value.str "B"), ("y", Value.str "C")])]
          [(⟨YAML_STR_TAG, "x"⟩, .scalar ⟨YAML_STR_TAG, "A"⟩),
           (⟨"!tmp_extend", ""⟩, .scalar ⟨YAML_STR_TAG, "m"⟩)] 1 2
        = (.ok (.vmap [("x", .str "B"), ("y", .str "C")]), Eff.zero)) :=
  ⟨rfl, c1_amended 0 plainEnv _ "m" "A" "B" "C" "x" "y" 1 2 rfl
    (by decide) (by decide) (by decide) rfl⟩

/-- C3: construct_element hands the rewritten body to the dashboard
constructor at depth 0 (the source passes the literal 2 into the deep
parameter, leaving depth at its default), so the caller-configured top-level
validator — not the permissive default — is applied at the body root: with a
rejecting configured validator the instantiation yields no object and sets
the config-error flag. Had the body been fed at a post-top-level depth, as
the claim states, the same body would construct the element without error,
as the second conjunct shows. -/
theorem c3_code_bug :
    construct_element 9 c3Env c3Template [] = (.ok Value.none, Eff.flag)
    ∧ construct_dashboard_node 9 c3Env [] c3Body 2 2
      = (.ok (.elem "WCls" []), Eff.zero) := by
  constructor <;> rfl

/-- C6: sequence splice law. In a template sequence holding the literal
scalar x, a splice site for the variable v and the literal scalar y,
instantiating with v bound to the list with elements p and q yields the list
x, p, q, y — the bound list inserted at the splice position between the
untouched prefix and suffix — and instantiating with v unbound (and with no
default, the effective variable map simply has no entry for v) yields the
list x, y. -/
theorem c6_sequence_splice (f : Nat) (env : Env) (vrs : AList) (x y v : String)
    (p q : Value) (deep depth : Nat)
    (hsubs : env.substitutions = Option.none) :
    (plookup v vrs = some (.vlist [p, q]) →
      construct_dashboard_node (f + 5) env vrs
          (.sequence [.scalar ⟨YAML_STR_TAG, x⟩, .scalar ⟨"!tmp_extend", v⟩,
            .scalar ⟨YAML_STR_TAG, y⟩]) deep depth
        = (.ok (.vlist [.str x, p, q, .str y]), Eff.zero))
    ∧ (plookup v vrs = Option.none →
      construct_dashboard_node (f + 5) env vrs
          (.sequence [.scalar ⟨YAML_STR_TAG, x⟩, .scalar ⟨"!tmp_extend", v⟩,
            .scalar ⟨YAML_STR_TAG, y⟩]) deep depth
        = (.ok (.vlist [.str x, .str y]), Eff.zero)) := by
  constructor <;> intro hv <;>
    simp [construct_dashboard_node, construct_sequence, hv, hsubs,
      construct_scalar, Node.scalarValue, Node.tag, YAML_STR_TAG,
      TEMPLATE_EXTEND_TAGS, TEMPLATE_VARIABLE_TAGS, Eff.merge, Eff.zero]

/-- Witness for c6_sequence_splice at a concrete instance. -/
theorem c6_witness :
    plainEnv.substitutions = Option.none
    ∧ ((plookup "v" [("v", Value.vlist [Value.str "p", Value.str "q"])]
          = some (Value.vlist [Value.str "p", Value.str "q"]) →
        construct_dashboard_node 5 plainEnv
            [("v", Value.vlist [Value.str "p", Value.str "q"])]
            (.sequence [.scalar ⟨YAML_STR_TAG, "x"⟩, .scalar ⟨"!tmp_extend", "v"⟩,
              .scalar ⟨YAML_STR_TAG, "y"⟩]) 1 2
          = (.ok (.vlist [.str "x", .str "p", .str "q", .str "y"]), Eff.zero))
      ∧ (plookup "v" [("v", Value.vlist [Value.str "p", Value.str "q"])] = Option.none →
        construct_dashboard_node 5 plainEnv
            [("v", Value.vlist [Value.str "p", Value.str "q"])]
            (.sequence [.scalar ⟨YAML_STR_TAG, "x"⟩, .scalar ⟨"!tmp_extend", "v"⟩,
              .scalar ⟨YAML_STR_TAG, "y"⟩]) 1 2
          = (.ok (.vlist [.str "x", .str "y"]), Eff.zero))) :=
  ⟨rfl, c6_sequence_splice 0 plainEnv _ "x" "y" "v" (Value.str "p") (Value.str "q") 1 2 rfl⟩

/-- C10: a mapping whose type entry is the string None but which has at
least one more entry, dispatched under the permissive validator (depth
greater than 1), yields the plain constructed dict with the type entry
still present — neither a domain object nor the python None; the python
None is produced exactly when the type entry is the sole entry. -/
theorem c10_type_none (f : Nat) (env : Env) (vrs : AList) (d : AList)
    (deep depth : Nat)
    (hty : plookup "type" d = some (.str "None"))
    (hdepth : 1 < depth) :
    (d.length ≠ 1 →
      construct_mapping_dispatch (f + 1) env vrs d deep depth
        = (.ok (.vmap d), Eff.zero))
    ∧ (d.length = 1 →
      construct_mapping_dispatch (f + 1) env vrs d deep depth
        = (.ok Value.none, Eff.zero)) := by
  constructor <;> intro h <;>
    simp [construct_mapping_dispatch, parse_element_type, pcontains, hty, h,
      Nat.not_le.mpr hdepth]

/-- Witness for c10_type_none at concrete dicts, one with an extra entry and
one with the type entry alone. -/
theorem c10_witness :
    (plookup "type" [("type", Value.str "None"), ("x", Value.str "1")]
        = some (Value.str "None")
      ∧ (1 : Nat) < 2
      ∧ construct_mapping_dispatch 7 plainEnv []
          [("type", Value.str "None"), ("x", Value.str "1")] 1 2
        = (.ok (.vmap [("type", Value.str "None"), ("x", Value.str "1")]), Eff.zero))
    ∧ (plookup "type" [("type", Value.str "None")] = some (Value.str "None")
      ∧ construct_mapping_dispatch 7 plainEnv [] [("type", Value.str "None")] 1 2
        = (.ok Value.none, Eff.zero)) :=
  ⟨⟨rfl, by decide,
      (c10_type_none 6 plainEnv [] [("type", Value.str "None"), ("x", Value.str "1")]
        1 2 rfl (by decide)).1 (by decide)⟩,
    ⟨rfl,
      (c10_type_none 6 plainEnv [] [("type", Value.str "None")] 1 2 rfl
        (by decide)).2 rfl⟩⟩

/-- C4: an instantiation call with any missing required variable or any
wrongly shaped splice binding aborts as a whole with one raised error that
batches every missing name and every wrongly shaped mapping and sequence
variable of that call, builds no object, and does not set the document-wide
config-error flag (so sibling and later construction is unaffected). -/
theorem c4_batched_abort (f : Nat) (env : Env) (t : TemplateElement) (varmap : AList)
    (h : missing_required t varmap ≠ [] ∨ bad_mapping_vars t varmap ≠ []
      ∨ bad_sequence_vars t varmap ≠ []) :
    (construct_element (f + 1) env t varmap).1
      = CRes.templateErr ⟨t.template, missing_required t varmap,
          bad_mapping_vars t varmap, bad_sequence_vars t varmap⟩
    ∧ (construct_element (f + 1) env t varmap).2.configError = false := by
  have hc : ¬ ((missing_required t varmap = [] ∧ bad_mapping_vars t varmap = [])
      ∧ bad_sequence_vars t varmap = []) := by
    rcases h with h | h | h <;> tauto
  constructor <;> simp [construct_element, List.isEmpty_iff, hc]

/-- Witness for c4_batched_abort: text missing, props bound to a string and
items bound to a dict, all reported in one error. -/
theorem c4_witness :
    (missing_required c4Template [("props", Value.str "wrong"), ("items", Value.vmap [])]
        = ["text"]
      ∧ bad_mapping_vars c4Template [("props", Value.str "wrong"), ("items", Value.vmap [])]
        = ["props"]
      ∧ bad_sequence_vars c4Template [("props", Value.str "wrong"), ("items", Value.vmap [])]
        = ["items"])
    ∧ (construct_element 8 plainEnv c4Template
          [("props", Value.str "wrong"), ("items", Value.vmap [])]).1
      = CRes.templateErr ⟨"c4t", ["text"], ["props"], ["items"]⟩
    ∧ (construct_element 8 plainEnv c4Template
          [("props", Value.str "wrong"), ("items", Value.vmap [])]).2.configError = false :=
  ⟨⟨rfl, rfl, rfl⟩,
    (c4_batched_abort 7 plainEnv c4Template _ (Or.inl (by decide))).1,
    (c4_batched_abort 7 plainEnv c4Template _ (Or.inl (by decide))).2⟩

/-- C5: template compilation is all-or-nothing per template. When
construct_template fails, nothing is registered (the registry is unchanged
and no Template Definition is produced), and the failed template does not
block compiling the remaining templates of a batch: processing the batch
with the failing template at its head leaves exactly the registry the rest
of the batch produces. -/
theorem c5_all_or_nothing (env : Env) (reg : List (String × TemplateElement))
    (name : String) (baseEntries : List (SNode × Node))
    (rest : List (String × List (SNode × Node))) (e : TemplateLoadError)
    (h : construct_template env name baseEntries = TRes.err e) :
    compile_template env reg name baseEntries = (reg, Option.none)
    ∧ compile_many env reg ((name, baseEntries) :: rest) = compile_many env reg rest := by
  have h1 : compile_template env reg name baseEntries = (reg, Option.none) := by
    simp [compile_template, h]
  exact ⟨h1, by simp [compile_many, h1]⟩

/-- Witness for c5_all_or_nothing: compiling a template without an element
entry fails, registers nothing, and does not block the rest of the batch. -/
theorem c5_witness :
    construct_template plainEnv "broken" c5Body
        = TRes.err ⟨"broken", true, [], [], []⟩
    ∧ (compile_template plainEnv [] "broken" c5Body = ([], Option.none)
      ∧ compile_many plainEnv [] (("broken", c5Body) :: [("other", c5Body)])
        = compile_many plainEnv [] [("other", c5Body)]) :=
  ⟨rfl, c5_all_or_nothing plainEnv [] "broken" c5Body [("other", c5Body)] _ rfl⟩

/-- C2, counterexample: compiling a body that uses the name v both as a
scalar substitution and as a mapping splice succeeds — a Template Definition
is produced, with v both required and a mapping-splice variable — so the
claim that such a compile must fail is false. Only the mapping-splice
versus sequence-splice collision is checked by construct_template. -/
theorem c2_counterexample :
    construct_template plainEnv "dual" c2Body
      = TRes.ok ⟨"dual",
          .mapping [(⟨YAML_STR_TAG, "text"⟩, .scalar ⟨"!tmp_var", "v"⟩),
            (⟨"!tmp_extend", ""⟩, .scalar ⟨YAML_STR_TAG, "v"⟩)],
          ["v"], [], [], ["v"]⟩ := rfl

/-- C2, amended: a name used as both a mapping splice and a sequence splice
does make compilation fail as a whole, with the collision reported and no
Template Definition registered; a name shared between a scalar substitution
site and a splice site does not by itself fail compilation (see
c2_counterexample). -/
theorem c2_amended (env : Env) (name : String) (baseEntries : List (SNode × Node))
    (reg : List (String × TemplateElement)) (v : String)
    (hd : defaults_dictlike (template_scan env (.mapping baseEntries) ⟨[], [], []⟩).1 = true)
    (hmapv : v ∈ (template_scan env (.mapping baseEntries) ⟨[], [], []⟩).2.1.map_extends)
    (hseqv : v ∈ (template_scan env (.mapping baseEntries) ⟨[], [], []⟩).2.1.sequence_extends) :
    (∃ e, construct_template env name baseEntries = TRes.err e
      ∧ e.mapSeqCollisions ≠ [])
    ∧ compile_template env reg name baseEntries = (reg, Option.none) := by
  rcases hscan : template_scan env (.mapping baseEntries) ⟨[], [], []⟩ with ⟨val, sets, eff⟩
  simp only [hscan] at hd hmapv hseqv
  have hcone : sets.map_extends.filter (fun x => x ∈ sets.sequence_extends) ≠ [] := by
    refine List.ne_nil_of_mem (a := v) ?_
    rw [List.mem_filter]
    exact ⟨hmapv, by simpa using hseqv⟩
  cases val with
  | str s => simp [defaults_dictlike] at hd
  | vlist l => simp [defaults_dictlike] at hd
  | elem c l => simp [defaults_dictlike] at hd
  | none => simp [defaults_dictlike] at hd
  | vmap data =>
    simp only [defaults_dictlike] at hd
    cases hdef : plookup "defaults" data with
    | none =>
      have heq : construct_template env name baseEntries
          = TRes.err ⟨name, ¬ pcontains "element" data,
              (data.map (fun e => e.1)).filter (fun x => ¬ (x ∈ allowed_entries)),
              sets.map_extends.filter (fun x => x ∈ sets.sequence_extends), []⟩ := by
        simp only [construct_template, hscan, hdef]
        rw [if_pos (Or.inr (Or.inr hcone))]
      exact ⟨⟨_, heq, hcone⟩, by simp [compile_template, heq]⟩
    | some w =>
      rw [hdef] at hd
      cases w with
      | vmap dm =>
        rcases hloop : defaults_loop sets.map_extends sets.sequence_extends dm
            sets.vars [] [] with ⟨vars, opts, bad⟩
        have heq : construct_template env name baseEntries
            = TRes.err ⟨name, ¬ pcontains "element" data,
                (data.map (fun e => e.1)).filter (fun x => ¬ (x ∈ allowed_entries)),
                sets.map_extends.filter (fun x => x ∈ sets.sequence_extends), bad⟩ := by
          simp only [construct_template, hscan, hdef, hloop]
          rw [if_pos (Or.inr (Or.inr (Or.inl hcone)))]
        exact ⟨⟨_, heq, hcone⟩, by simp [compile_template, heq]⟩
      | str s => simp [Value.isDict] at hd
      | vlist l => simp [Value.isDict] at hd
      | elem c l => simp [Value.isDict] at hd
      | none => simp [Value.isDict] at hd

/-- Witness for c2_amended: the map-and-sequence collision on w fails the
compile and registers nothing. -/
theorem c2_amended_witness :
    defaults_dictlike (template_scan plainEnv (.mapping c2DualBody) ⟨[], [], []⟩).1 = true
    ∧ ((∃ e, construct_template plainEnv "dual2" c2DualBody = TRes.err e
        ∧ e.mapSeqCollisions ≠ [])
      ∧ compile_template plainEnv [] "dual2" c2DualBody = ([], Option.none)) :=
  ⟨rfl, c2_amended plainEnv "dual2" c2DualBody [] "w" rfl (by decide) (by decide)⟩

/-- C8: node-level continue-on-error, for every bad-type path of
parse_element_type. With the namespace unknown unregistered (bad
identifier, the SyntaxWarning caught at loader.py line 116), the bare name
NoSuchType absent from the default element table and the local type
NoSuchLocal unknown to the registered p parser (bad type, the KeyError
caught at loader.py line 108), each of the three nodes constructs to no
object and sets the document-wide config-error flag — three logged errors
in all — while the sibling nodes before, between and after them in the same
sequence, and likewise in the same mapping, still construct normally and
keep their values. -/
theorem c8_continue_on_error (f : Nat) (env : Env) (vrs : AList) (x y z : String)
    (prs : String → Option EltClass) (deep depth : Nat)
    (hsubs : env.substitutions = Option.none)
    (hns : plookup "unknown" env.elementParsers = Option.none)
    (hbare : "NoSuchType" ∉ env.defaultElements)
    (hp : plookup "p" env.elementParsers = some prs)
    (hloc : prs "NoSuchLocal" = Option.none) :
    construct_dashboard_node (f + 11) env vrs
        (.sequence [.scalar ⟨YAML_STR_TAG, x⟩, c8BadNode, .scalar ⟨YAML_STR_TAG, y⟩,
          c8BadTypeNode, c8BadLocalNode, .scalar ⟨YAML_STR_TAG, z⟩]) deep depth
      = (.ok (.vlist [.str x, Value.none, .str y, Value.none, Value.none, .str z]),
         ⟨true, 3⟩)
    ∧ construct_mapping (f + 11) env vrs
        [(⟨YAML_STR_TAG, "e1"⟩, .scalar ⟨YAML_STR_TAG, x⟩),
         (⟨YAML_STR_TAG, "e2"⟩, c8BadNode),
         (⟨YAML_STR_TAG, "e3"⟩, .scalar ⟨YAML_STR_TAG, y⟩),
         (⟨YAML_STR_TAG, "e4"⟩, c8BadTypeNode),
         (⟨YAML_STR_TAG, "e5"⟩, c8BadLocalNode),
         (⟨YAML_STR_TAG, "e6"⟩, .scalar ⟨YAML_STR_TAG, z⟩)] deep depth
      = (.ok (.vmap [("e1", .str x), ("e2", Value.none), ("e3", .str y),
          ("e4", Value.none), ("e5", Value.none), ("e6", .str z)]), ⟨true, 3⟩) := by
  constructor <;>
    simp [construct_dashboard_node, construct_sequence, construct_mapping,
      construct_mapping_loop, construct_mapping_dispatch, c8BadNode,
      c8BadTypeNode, c8BadLocalNode, parse_element_type, splitColon,
      splitColonAux, hsubs, hns, hbare, hp, hloc, construct_scalar,
      Node.scalarValue, Node.tag, pset, plookup, pcontains, YAML_STR_TAG,
      TEMPLATE_EXTEND_TAGS, TEMPLATE_VARIABLE_TAGS, Eff.merge, Eff.zero,
      Eff.flag]

/-- Witness for c8_continue_on_error at a concrete instance, with all three
bad-type kinds between constructing siblings. -/
theorem c8_witness :
    (c8Env.substitutions = Option.none
      ∧ plookup "unknown" c8Env.elementParsers = Option.none
      ∧ "NoSuchType" ∉ c8Env.defaultElements
      ∧ plookup "p" c8Env.elementParsers = some c8Prs
      ∧ c8Prs "NoSuchLocal" = Option.none)
    ∧ (construct_dashboard_node 11 c8Env []
          (.sequence [.scalar ⟨YAML_STR_TAG, "a"⟩, c8BadNode, .scalar ⟨YAML_STR_TAG, "b"⟩,
            c8BadTypeNode, c8BadLocalNode, .scalar ⟨YAML_STR_TAG, "c"⟩]) 1 0
        = (.ok (.vlist [.str "a", Value.none, .str "b", Value.none, Value.none, .str "c"]),
           ⟨true, 3⟩)
      ∧ construct_mapping 11 c8Env []
          [(⟨YAML_STR_TAG, "e1"⟩, .scalar ⟨YAML_STR_TAG, "a"⟩),
           (⟨YAML_STR_TAG, "e2"⟩, c8BadNode),
           (⟨YAML_STR_TAG, "e3"⟩, .scalar ⟨YAML_STR_TAG, "b"⟩),
           (⟨YAML_STR_TAG, "e4"⟩, c8BadTypeNode),
           (⟨YAML_STR_TAG, "e5"⟩, c8BadLocalNode),
           (⟨YAML_STR_TAG, "e6"⟩, .scalar ⟨YAML_STR_TAG, "c"⟩)] 1 0
        = (.ok (.vmap [("e1", .str "a"), ("e2", Value.none), ("e3", .str "b"),
            ("e4", Value.none), ("e5", Value.none), ("e6", .str "c")]), ⟨true, 3⟩)) :=
  ⟨⟨rfl, rfl, by decide, rfl, rfl⟩,
    c8_continue_on_error 0 c8Env [] "a" "b" "c" c8Prs 1 0 rfl rfl (by decide) rfl rfl⟩

/-- C9: a secret-tagged scalar whose key is absent from the loaded secret
map logs one local error and resolves to the explicit python None marker,
and construction of the rest of the enclosing mapping continues: the sibling
entry still constructs to its value, and the config-error flag stays
clear. -/
theorem c9_secret_unresolved (env : Env) (subs : Option SubsMap) (key w : String)
    (hkey : '$' ∉ key.data) (hw : '$' ∉ w.data)
    (hmiss : plookup key env.secrets = Option.none) :
    base_construct env subs
        (.mapping [(⟨YAML_STR_TAG, "a"⟩, .scalar ⟨"!secret", key⟩),
          (⟨YAML_STR_TAG, "b"⟩, .scalar ⟨YAML_STR_TAG, w⟩)])
      = (.vmap [("a", Value.none), ("b", .str w)], ⟨false, 1⟩) := by
  cases subs <;>
    simp [base_construct, base_construct_entries, base_construct_scalar,
      construct_scalar, keyString, hkey, hw, hmiss, pset, plookup, YAML_STR_TAG,
      Eff.merge, Eff.zero, Eff.log]

/-- Witness for c9_secret_unresolved at a concrete instance. -/
theorem c9_witness :
    plookup "missing_key" plainEnv.secrets = Option.none
    ∧ base_construct plainEnv Option.none
        (.mapping [(⟨YAML_STR_TAG, "a"⟩, .scalar ⟨"!secret", "missing_key"⟩),
          (⟨YAML_STR_TAG, "b"⟩, .scalar ⟨YAML_STR_TAG, "kept"⟩)])
      = (.vmap [("a", Value.none), ("b", .str "kept")], ⟨false, 1⟩) :=
  ⟨rfl, c9_secret_unresolved plainEnv Option.none "missing_key" "kept"
    (by decide) (by decide) rfl⟩

/-- The first pass walks over entries with plain, dollar-free keys that are
not the substitutions key by deferring each of them, in order, to the
parse-later list; the substitution state, data dict, events and effects are
untouched. -/
theorem pass1_skip (env : Env) (pre : List (SNode × Node)) :
    ∀ (rest : List (SNode × Node)) (subs : Option SubsMap) (d : AList)
      (pl : List (String × Node)) (ev : List LEvent) (eff : Eff),
      (∀ e ∈ pre, e.1.tag = YAML_STR_TAG ∧ '$' ∉ e.1.value.data
        ∧ e.1.value ≠ "substitutions") →
      (pl.map Prod.fst ++ pre.map (fun e => e.1.value)).Nodup →
      main_pass1 env (pre ++ rest) subs d pl ev eff
        = main_pass1 env rest subs d (pl ++ pre.map (fun e : SNode × Node => (e.1.value, e.2))) ev eff := by
  induction pre with
  | nil =>
    intro rest subs d pl ev eff _ _
    simp
  | cons e t ih =>
    intro rest subs d pl ev eff hp hnd
    obtain ⟨kn, vn⟩ := e
    obtain ⟨htag, hdol, hnsub⟩ := hp (kn, vn) (by simp)
    obtain ⟨ktag, kval⟩ := kn
    simp only at htag hdol hnsub
    subst htag
    have hkey : base_construct_scalar env subs ⟨YAML_STR_TAG, kval⟩
        = (.str kval, Eff.zero) := key_plain env subs kval hdol
    have hfresh : ¬ kval ∈ pl.map Prod.fst := by
      rw [List.nodup_append] at hnd
      intro hmem
      exact hnd.2.2 hmem (by simp)
    have hnd2 : ((pl ++ [(kval, vn)]).map Prod.fst
        ++ t.map (fun e => e.1.value)).Nodup := by
      simpa [List.append_assoc] using hnd
    simp only [List.cons_append, main_pass1, hkey, keyString, if_neg hnsub,
      Eff.merge_zero, List.append_eq]
    rw [pset_append _ _ _ hfresh,
      ih rest subs d (pl ++ [(kval, vn)]) ev eff (fun x hx => hp x (by simp [hx])) hnd2]
    simp [List.append_assoc]

/-- The events of the second pass are the incoming events followed by one
construction event per deferred key, in order, each carrying the current
substitution state. -/
theorem pass2_events (env : Env) (subs : Option SubsMap) (pl : List (String × Node)) :
    ∀ (d : AList) (ev : List LEvent) (eff : Eff),
      (main_pass2 env subs pl d ev eff).2.1
        = ev ++ pl.map (fun e => LEvent.constructedTop e.1 subs) := by
  induction pl with
  | nil =>
    intro d ev eff
    simp [main_pass2]
  | cons e t ih =>
    intro d ev eff
    obtain ⟨key, vn⟩ := e
    simp only [main_pass2]
    rw [ih]
    simp

/-- C7: two-pass top-level ordering. For a root document whose entries are
plain-keyed and hold exactly one substitutions entry at an arbitrary
position, the observable event trace is the installation of the fully
constructed substitution map followed by the construction of every other
top-level value in original source order, each performed under the installed
map — so the substitution map is fully known before any other top-level
value is constructed, wherever the substitutions key sits in the source. -/
theorem c7_two_pass_order (env : Env) (subs0 : Option SubsMap)
    (pre post : List (SNode × Node)) (vnode : Node) (mv : AList) (effv : Eff)
    (hpp : ∀ e ∈ pre ++ post, e.1.tag = YAML_STR_TAG ∧ '$' ∉ e.1.value.data
      ∧ e.1.value ≠ "substitutions")
    (hnd : ((pre ++ post).map (fun e => e.1.value)).Nodup)
    (hv : base_construct env subs0 vnode = (.vmap mv, effv)) :
    ∃ out, main_construct_top env subs0
        (pre ++ (⟨YAML_STR_TAG, "substitutions"⟩, vnode) :: post) = TopRes.ok out
      ∧ out.events = LEvent.installSubs (subs_of_dict mv) ::
          (pre ++ post).map (fun e => LEvent.constructedTop e.1.value
            (some (subs_of_dict mv))) := by
  have hpre : ∀ e ∈ pre, e.1.tag = YAML_STR_TAG ∧ '$' ∉ e.1.value.data
      ∧ e.1.value ≠ "substitutions" := fun e he => hpp e (by simp [he])
  have hpost : ∀ e ∈ post, e.1.tag = YAML_STR_TAG ∧ '$' ∉ e.1.value.data
      ∧ e.1.value ≠ "substitutions" := fun e he => hpp e (by simp [he])
  rw [List.map_append] at hnd
  have hndpre : (([] : List (String × Node)).map Prod.fst
      ++ pre.map (fun e => e.1.value)).Nodup := by
    simpa using hnd.of_append_left
  unfold main_construct_top
  rw [pass1_skip env pre _ subs0 [] [] [] Eff.zero hpre hndpre]
  simp only [List.nil_append, main_pass1,
    key_plain env subs0 "substitutions" (by decide), keyString, if_pos rfl, hv,
    if_true]
  have hndpost : ((pre.map (fun e : SNode × Node => (e.1.value, e.2))).map Prod.fst
      ++ post.map (fun e => e.1.value)).Nodup := by
    simpa [Function.comp] using hnd
  have h2 := pass1_skip env post [] (some (subs_of_dict mv))
    (pset "substitutions" (.vmap mv) [])
    (pre.map (fun e : SNode × Node => (e.1.value, e.2)))
    ([] ++ [LEvent.installSubs (subs_of_dict mv)])
    (Eff.zero.merge (Eff.zero.merge effv)) hpost hndpost
  rw [List.append_nil] at h2
  simp only [List.nil_append] at h2
  rw [h2]
  simp only [main_pass1]
  refine ⟨_, rfl, ?_⟩
  rw [pass2_events]
  simp only [List.map_append, List.map_map]
  rfl

/-- Witness for c7_two_pass_order: a three-entry document with the
substitutions entry in the middle installs the map first and then
constructs device and screen in source order under it. -/
theorem c7_witness :
    base_construct plainEnv Option.none
        (.mapping [(⟨YAML_STR_TAG, "x"⟩, .scalar ⟨YAML_STR_TAG, "X"⟩)])
      = (.vmap [("x", Value.str "X")], Eff.zero)
    ∧ ∃ out, main_construct_top plainEnv Option.none
          [(⟨YAML_STR_TAG, "device"⟩, .scalar ⟨YAML_STR_TAG, "desk"⟩),
           (⟨YAML_STR_TAG, "substitutions"⟩,
             .mapping [(⟨YAML_STR_TAG, "x"⟩, .scalar ⟨YAML_STR_TAG, "X"⟩)]),
           (⟨YAML_STR_TAG, "screen"⟩, .scalar ⟨YAML_STR_TAG, "main"⟩)]
        = TopRes.ok out
      ∧ out.events
        = [LEvent.installSubs [("x", "X")],
           LEvent.constructedTop "device" (some [("x", "X")]),
           LEvent.constructedTop "screen" (some [("x", "X")])] :=
  ⟨rfl, by
    have h := c7_two_pass_order plainEnv Option.none
      [(⟨YAML_STR_TAG, "device"⟩, .scalar ⟨YAML_STR_TAG, "desk"⟩)]
      [(⟨YAML_STR_TAG, "screen"⟩, .scalar ⟨YAML_STR_TAG, "main"⟩)]
      (.mapping [(⟨YAML_STR_TAG, "x"⟩, .scalar ⟨YAML_STR_TAG, "X"⟩)])
      [("x", Value.str "X")] Eff.zero (by decide) (by decide) rfl
    simpa [subs_of_dict, valueToStr] using h⟩

end InkBoard
